import Mathlib

/-!
# My Focus — Monitoring Orchestration & Intervention, shallow embedding

A shallow embedding of the monitoring front-end logic from
`src/assets/js/app.js` (My_Focus).  JavaScript functions are translated
to Lean functions; the mutable module-level variables (`isMonitoring`,
`currentFocusState`, `currentSelectedTask`, the DOM mirrors and
`localStorage`) become explicit state records.  JavaScript truthiness on
optional strings/booleans is modelled explicitly (`none`, `""` and
`false` are falsy).  Asynchronous backend calls (`TauriAPI.*`,
`confirm`) are modelled as inputs provided by an environment record:
`none` stands for a call that threw.
-/

namespace MyFocus

/-- JS truthiness for a possibly-missing string value:
`undefined`/`null` and `""` are falsy, every other string is truthy. -/
def jsTruthyStr : Option String → Bool
  | none => false
  | some s => !(s == "")

/-- Whitespace as recognised by JavaScript `String.prototype.trim`
(the characters that matter for the configuration strings). -/
def isJsWhitespace (c : Char) : Bool :=
  c == ' ' || c == '\t' || c == '\n' || c == '\r'

/-- JavaScript `s.trim()`: strip leading and trailing whitespace. -/
def jsTrim (s : String) : String :=
  String.mk
    (((s.data.dropWhile isJsWhitespace).reverse.dropWhile
      isJsWhitespace).reverse)

/-- The blank-field test used by `checkAIConfiguration`
(`!v || v.trim() === ''`): missing value, empty string, or
whitespace-only string. -/
def isBlankField : Option String → Bool
  | none => true
  | some s => s == "" || jsTrim s == ""

/-- AI configuration as loaded by `TauriAPI.loadAIConfig()`
(fields the gate inspects; a field can be absent). -/
structure AIConfig where
  api_key : Option String
  detection_model : Option String
  deriving Repr, DecidableEq

/-- User settings as loaded by `TauriAPI.loadUserSettings()`.
An absent `whitelist`/`blacklist` field behaves in the source exactly
like an empty array (`settings.whitelist && settings.whitelist.length > 0`
is false either way), so both are modelled as plain lists. -/
structure UserSettings where
  whitelist : List String
  blacklist : List String
  deriving Repr, DecidableEq

/-- Result of `TauriAPI.testAIAPI` (the connectivity round trip). -/
structure TestResult where
  success : Bool
  message : String
  deriving Repr, DecidableEq

/-- The distinct failures `checkAIConfiguration` reports (each shows its
own notification in the source). -/
inductive AIConfigError
  | missingApiKey
  | missingDetectionModel
  | loadFailure
  deriving Repr, DecidableEq

/-- `checkAIConfiguration` (app.js 2961–2990), refined to report which
check failed: blank `api_key` first, then blank `detection_model`;
a throwing `loadAIConfig` is the catch branch. -/
def checkAIConfigurationE : Option AIConfig → Option AIConfigError
  | none => some .loadFailure
  | some c =>
    if isBlankField c.api_key then some .missingApiKey
    else if isBlankField c.detection_model then some .missingDetectionModel
    else none

/-- The boolean the source returns from `checkAIConfiguration`. -/
def checkAIConfiguration (c : Option AIConfig) : Bool :=
  (checkAIConfigurationE c).isNone

/-- Observable outcome of `checkWhiteBlacklistConfiguration`
(app.js 2995–3021): whether monitoring may proceed, whether the
confirm dialog was shown, and whether the user was routed to the
settings page. -/
structure ListCheckOutcome where
  ok : Bool
  confirmRequested : Bool
  routedToSettings : Bool
  deriving Repr, DecidableEq

/-- `checkWhiteBlacklistConfiguration`: when both lists are empty the
user is asked to confirm (`confirm(...)`); declining clicks the
settings tab and blocks the start.  A throwing `loadUserSettings`
does not block (the catch branch returns `true`). -/
def checkWhiteBlacklistConfiguration :
    Option UserSettings → Bool → ListCheckOutcome
  | none, _ => ⟨true, false, false⟩
  | some s, confirmed =>
    let hasWhitelist := !s.whitelist.isEmpty
    let hasBlacklist := !s.blacklist.isEmpty
    if !hasWhitelist && !hasBlacklist then
      if confirmed then ⟨true, true, false⟩
      else ⟨false, true, true⟩
    else ⟨true, false, false⟩

/-- `testAPIConnectionForMonitoring` (app.js 3026–3052): fails on a
non-success result and on a thrown call. -/
def testAPIConnectionForMonitoring : Option TestResult → Bool
  | none => false
  | some r => r.success

/-- The three pre-start checks of `toggleMonitoring`, in source order. -/
inductive Check
  | aiCheck
  | listCheck
  | apiCheck
  deriving Repr, DecidableEq

/-- Everything the start path of `toggleMonitoring` consumes from the
outside world; `none` models a backend call that threw. -/
structure Env where
  aiConfig : Option AIConfig
  userSettings : Option UserSettings
  /-- The user's answer to the empty-lists `confirm` dialog
  (consulted only if that dialog is shown). -/
  emptyListConfirm : Bool
  apiTest : Option TestResult
  deriving Repr, DecidableEq

/-- What a start attempt did: which checks ran (in order) and whether
monitoring started. -/
structure StartOutcome where
  checksRun : List Check
  started : Bool
  deriving Repr, DecidableEq

/-- The start branch of `toggleMonitoring` (app.js 2917–2944): the three
checks run in order, each failing check returns immediately and the
session is not started; only after all three pass is
`startMonitoring` invoked. -/
def toggleMonitoringStart (env : Env) : StartOutcome :=
  if !checkAIConfiguration env.aiConfig then
    ⟨[.aiCheck], false⟩
  else if !(checkWhiteBlacklistConfiguration env.userSettings
      env.emptyListConfirm).ok then
    ⟨[.aiCheck, .listCheck], false⟩
  else if !testAPIConnectionForMonitoring env.apiTest then
    ⟨[.aiCheck, .listCheck, .apiCheck], false⟩
  else
    ⟨[.aiCheck, .listCheck, .apiCheck], true⟩

/-- The module-level monitoring state: `isMonitoring` and
`currentFocusState` (a string key of `statusConfig`). -/
structure MonitorState where
  isMonitoring : Bool
  currentFocusState : String
  deriving Repr, DecidableEq

/-- The initial state (app.js 9–12). -/
def initialMonitorState : MonitorState := ⟨false, "idle"⟩

/-- `toggleMonitoring` (app.js 2909–2956) as a state transformer:
stopping always resets to idle; a successful start sets `focused`;
a failed check returns without touching the state. -/
def toggleMonitoring (env : Env) (st : MonitorState) : MonitorState :=
  if st.isMonitoring then
    { isMonitoring := false, currentFocusState := "idle" }
  else if (toggleMonitoringStart env).started then
    { isMonitoring := true, currentFocusState := "focused" }
  else
    st

/-! ## Focus state machine (`updateFocusStatus`, `updateDashboardFocusState`) -/

/-- A classification result as consumed by `updateDashboardFocusState`
(app.js 3670–3688): the backend's raw `focus_state` string plus the
advisory fields (confidence is display-only). -/
structure ClassificationResult where
  focus_state : String
  confidence : Rat
  application_name : Option String
  window_title : Option String
  ai_analysis : Option String
  deriving Repr, DecidableEq

/-- The `focusStateMap` lookup of `updateDashboardFocusState` together
with its `|| 'idle'` fallback: every raw state maps to one of the four
`statusConfig` keys, unrecognised ones (including `'Unknown'`) to
`"idle"`. -/
def focusStateMapKey (s : String) : String :=
  if s == "Focused" then "focused"
  else if s == "Distracted" then "distracted"
  else if s == "SeverelyDistracted" then "severely_distracted"
  else if s == "Unknown" then "idle"
  else "idle"

/-- `updateFocusStatus` (app.js 2590–2638) restricted to its effect on
the module variable `currentFocusState`: a string payload is assigned
unconditionally (the assignment happens before the `statusConfig`
lookup that only gates the DOM update). -/
def updateFocusStatus (s : String) (_current : String) : String := s

/-- `updateDashboardFocusState` (app.js 3670–3688) restricted to its
effect on `currentFocusState`: map the raw state and hand it to
`updateFocusStatus`. -/
def updateDashboardFocusState (r : ClassificationResult)
    (current : String) : String :=
  updateFocusStatus (focusStateMapKey r.focus_state) current

/-- Applying a whole sequence of classification results in order. -/
def applyResults (init : String) (rs : List ClassificationResult) :
    String :=
  rs.foldl (fun st r => updateDashboardFocusState r st) init

/-! ## Task binding and its UI mirrors -/

/-- A task as rendered in the task list (`data-task-id` and the
checkbox state are all the binding logic inspects). -/
structure Task where
  id : String
  completed : Bool
  deriving Repr, DecidableEq

/-- The selection state and its three mirrors: the module variable
`currentSelectedTask`, the `localStorage` entry, the dashboard text
(`current-task-text`, `none` renders 暂无任务), and the timer panel
text (`current-task-display`).  `isProcessing` is the debounce flag
hung on `selectCurrentTask`; `writes` and `notifications` count
`localStorage.setItem` calls and `showNotification` calls. -/
structure TaskUIState where
  isProcessing : Bool
  currentSelectedTask : Option String
  storedTask : Option (String × String)
  dashboardText : Option String
  timerText : Option String
  writes : Nat
  notifications : Nat
  deriving Repr, DecidableEq

/-- Whether the bound id names a live, uncompleted task: the DOM query
`taskList.querySelector('[data-task-id=...]')` plus the checkbox
check in `updateCurrentTaskDisplay`. -/
def taskAlive (tasks : List Task) (tid : String) : Bool :=
  match tasks.find? (fun tk => tk.id == tid) with
  | none => false
  | some tk => !tk.completed

/-- `updateCurrentTaskDisplay` (app.js 2836–2870) against the live task
list: with a truthy `taskText` and a truthy binding it verifies the
bound task; if the task is gone or completed it clears the binding and
the stored selection and renders the empty text.  The timer panel is
not touched on any path of this function. -/
def updateCurrentTaskDisplay (tasks : List Task)
    (taskText : Option String) (st : TaskUIState) : TaskUIState :=
  match taskText, st.currentSelectedTask with
  | some t, some tid =>
    if t == "" then { st with dashboardText := none }
    else if tid == "" then { st with dashboardText := some t }
    else if taskAlive tasks tid then { st with dashboardText := some t }
    else
      { st with
        currentSelectedTask := none
        storedTask := none
        dashboardText := none }
  | some t, none =>
    if t == "" then { st with dashboardText := none }
    else { st with dashboardText := some t }
  | none, _ => { st with dashboardText := none }

/-- `updateTimerCurrentTask` (app.js 2875–2887). -/
def updateTimerCurrentTask (taskText : Option String)
    (st : TaskUIState) : TaskUIState :=
  if jsTruthyStr taskText then { st with timerText := taskText }
  else { st with timerText := none }

/-- `clearCurrentTask` (app.js 2810–2831): null the binding, refresh
the dashboard text, remove the stored selection, refresh the timer
panel, and show the cleared notification. -/
def clearCurrentTask (tasks : List Task) (st : TaskUIState) :
    TaskUIState :=
  let st1 := { st with currentSelectedTask := none }
  let st2 := updateCurrentTaskDisplay tasks none st1
  let st3 := { st2 with storedTask := none }
  let st4 := updateTimerCurrentTask none st3
  { st4 with notifications := st4.notifications + 1 }

/-- `selectCurrentTask` (app.js 2764–2805): parameter guard, debounce
guard, then — in source order — set the binding, refresh the dashboard
display (which may itself invalidate a stale selection), write the
stored selection, refresh the timer panel, and notify.  The debounce
flag is left set; `resetSelectDebounce` models the 500 ms timeout
that clears it. -/
def selectCurrentTask (tasks : List Task) (taskId taskText : String)
    (st : TaskUIState) : TaskUIState :=
  if taskId == "" || taskText == "" then st
  else if st.isProcessing then st
  else
    let st1 := { st with
      isProcessing := true
      currentSelectedTask := some taskId }
    let st2 := updateCurrentTaskDisplay tasks (some taskText) st1
    let st3 := { st2 with
      storedTask := some (taskId, taskText)
      writes := st2.writes + 1 }
    let st4 := updateTimerCurrentTask (some taskText) st3
    { st4 with notifications := st4.notifications + 1 }

/-- The `setTimeout(() => { selectCurrentTask.isProcessing = false },
500)` callback. -/
def resetSelectDebounce (st : TaskUIState) : TaskUIState :=
  { st with isProcessing := false }

/-- The task-checkbox change handler (app.js 465–487): on a successful
backend update, completing the currently bound task clears it; on a
failed update the checkbox is reverted and nothing is cleared. -/
def onTaskCheckboxChange (tasks : List Task) (taskId : String)
    (nowChecked backendOk : Bool) (st : TaskUIState) : TaskUIState :=
  if !backendOk then st
  else if nowChecked && st.currentSelectedTask == some taskId then
    clearCurrentTask tasks st
  else st

/-- `deleteTask` (app.js 3126–3160) restricted to the binding state:
on a successful backend delete of the bound task the binding is
cleared (plus one deletion notification either way on success). -/
def deleteTask (tasks : List Task) (taskId : String) (backendOk : Bool)
    (st : TaskUIState) : TaskUIState :=
  if taskId == "" then st
  else if !backendOk then st
  else
    let st1 :=
      if st.currentSelectedTask == some taskId then
        clearCurrentTask tasks st
      else st
    { st1 with notifications := st1.notifications + 1 }

/-! ## Intervention delivery (`showDistractionIntervention`) -/

/-- The payload of a `distraction-intervention` event as destructured
by `showDistractionIntervention` (app.js 3772–3856).  `duration_seconds`
is `none` when the backend left it unset. -/
structure InterventionPayload where
  type : String
  message : String
  urgent : Bool
  duration_seconds : Option Nat
  sound_enabled : Bool
  deriving Repr, DecidableEq

/-- The `showSystemNotif` flag computed by `showDistractionIntervention`:
encouragement is in-app only; every other type requests a system
notification, urgent ones with the severe title and the rest with the
light-reminder title. -/
def showSystemNotifFlag (p : InterventionPayload) : Bool :=
  if p.type == "encouragement" then false
  else if p.urgent then true
  else true

/-- What one delivery renders: the in-page notification (always), the
system-notification request, and the sound cue. -/
structure DeliveryOutcome where
  inAppShown : Bool
  systemRequested : Bool
  soundPlayed : Bool
  deriving Repr, DecidableEq

/-- `showNotification` (app.js 2413–2439): the in-page notification is
unconditional; the system notification is issued only when requested
by the caller (and permission allows, which is environmental and not
modelled further). -/
def showNotification (showSystemNotification : Bool) :
    DeliveryOutcome :=
  { inAppShown := true, systemRequested := showSystemNotification,
    soundPlayed := false }

/-- The observable outcome of `showDistractionIntervention` for one
event: notification surfaces plus the sound cue
(`if (sound_enabled) playNotificationSound(urgent)`). -/
def showDistractionIntervention (p : InterventionPayload) :
    DeliveryOutcome :=
  let base := showNotification (showSystemNotifFlag p)
  { base with soundPlayed := p.sound_enabled }

/-- The auto-dismiss delay in seconds:
`(duration_seconds || 10)` — JavaScript `||` falls back to 10 for an
unset duration and for a zero duration alike. -/
def autoDismissSeconds (p : InterventionPayload) : Nat :=
  match p.duration_seconds with
  | none => 10
  | some d => if d == 0 then 10 else d

/-- The modal surface state: at most one `#distraction-modal` exists.
Delivery removes any existing modal before inserting the new one
(app.js 3835–3842), so the new payload replaces the old. -/
def deliverModal (p : InterventionPayload)
    (_current : Option InterventionPayload) :
    Option InterventionPayload :=
  some p

/-- Modelled from the spec: the InterventionPolicy that produces the
delivered events lives in the Tauri backend, which is not among the
repository's front-end sources; §4.5 of the spec has it emit
`Encouragement` events as non-urgent (`non-urgent, in-app only`),
`LightDistraction` with `urgent=false` and `SevereDistraction` with
`urgent=true`.  A delivered event therefore satisfies: if its type is
encouragement it is not urgent. -/
def policyDeliverable (p : InterventionPayload) : Prop :=
  p.type = "encouragement" → p.urgent = false

instance (p : InterventionPayload) : Decidable (policyDeliverable p) :=
  inferInstanceAs (Decidable (_ → _))

/-! ## Persisted distraction-intervention settings -/

/-- JavaScript `a || b` on an optional checkbox state
(`el?.checked || b`): `a` is truthy only as `some true`; a missing
element (`none`) and an unchecked box (`some false`) both fall back
to `b`. -/
def jsOrDefault (a : Option Bool) (b : Bool) : Bool :=
  match a with
  | some true => true
  | _ => b

/-- The checkbox states read while building the
`distraction_intervention` object (`none` = element not found). -/
structure InterventionCheckboxes where
  enabled : Option Bool
  lightNotification : Option Bool
  severePopup : Option Bool
  encouragement : Option Bool
  sound : Option Bool
  deriving Repr, DecidableEq

/-- The boolean fields of the persisted `distraction_intervention`
object. -/
structure DistractionInterventionSettings where
  enabled : Bool
  light_distraction_notification : Bool
  severe_distraction_popup : Bool
  encouragement_enabled : Bool
  notification_sound : Bool
  deriving Repr, DecidableEq

/-- The `distraction_intervention` object as built identically in
`saveSettings` (app.js 597–606), `autoSaveUserSettings`
(app.js 1058–1067) and `saveTheme` (app.js 3397–3406): every boolean
field is `document.getElementById(...)?.checked || true`. -/
def buildDistractionInterventionSettings
    (cb : InterventionCheckboxes) : DistractionInterventionSettings :=
  { enabled := jsOrDefault cb.enabled true,
    light_distraction_notification :=
      jsOrDefault cb.lightNotification true,
    severe_distraction_popup := jsOrDefault cb.severePopup true,
    encouragement_enabled := jsOrDefault cb.encouragement true,
    notification_sound := jsOrDefault cb.sound true }

/-! ## Theorems -/

/-- C1: every start attempt runs the authorization checks in the strict
order AI credentials → white/blacklist → API connectivity; a failing
check ends the run (no later check executes) with monitoring not
started, and monitoring starts exactly when all three pass. -/
theorem gate_checks_ordered_and_short_circuit (env : Env) :
    ((toggleMonitoringStart env).checksRun = [Check.aiCheck] ∨
      (toggleMonitoringStart env).checksRun =
        [Check.aiCheck, Check.listCheck] ∨
      (toggleMonitoringStart env).checksRun =
        [Check.aiCheck, Check.listCheck, Check.apiCheck]) ∧
    (checkAIConfiguration env.aiConfig = false →
      toggleMonitoringStart env = ⟨[Check.aiCheck], false⟩) ∧
    (checkAIConfiguration env.aiConfig = true →
      (checkWhiteBlacklistConfiguration env.userSettings
        env.emptyListConfirm).ok = false →
      toggleMonitoringStart env =
        ⟨[Check.aiCheck, Check.listCheck], false⟩) ∧
    (checkAIConfiguration env.aiConfig = true →
      (checkWhiteBlacklistConfiguration env.userSettings
        env.emptyListConfirm).ok = true →
      testAPIConnectionForMonitoring env.apiTest = false →
      toggleMonitoringStart env =
        ⟨[Check.aiCheck, Check.listCheck, Check.apiCheck], false⟩) ∧
    ((toggleMonitoringStart env).started = true ↔
      checkAIConfiguration env.aiConfig = true ∧
      (checkWhiteBlacklistConfiguration env.userSettings
        env.emptyListConfirm).ok = true ∧
      testAPIConnectionForMonitoring env.apiTest = true) := by
  cases hai : checkAIConfiguration env.aiConfig <;>
    cases hls : (checkWhiteBlacklistConfiguration env.userSettings
      env.emptyListConfirm).ok <;>
    cases hap : testAPIConnectionForMonitoring env.apiTest <;>
    simp [toggleMonitoringStart, hai, hls, hap]

/-- C2: a blank (missing, empty or whitespace-only) `api_key` makes the
credential check fail with the missing-API-key error; the session does
not start and the focus state stays `"idle"`. -/
theorem blank_api_key_blocks_start (env : Env) (c : AIConfig)
    (hc : env.aiConfig = some c)
    (hk : isBlankField c.api_key = true) :
    checkAIConfigurationE env.aiConfig =
      some AIConfigError.missingApiKey ∧
    (toggleMonitoringStart env).started = false ∧
    toggleMonitoring env initialMonitorState = initialMonitorState ∧
    (toggleMonitoring env initialMonitorState).currentFocusState =
      "idle" ∧
    (toggleMonitoring env initialMonitorState).isMonitoring = false := by
  have he : checkAIConfigurationE env.aiConfig =
      some AIConfigError.missingApiKey := by
    rw [hc]
    simp [checkAIConfigurationE, hk]
  have hb : checkAIConfiguration env.aiConfig = false := by
    simp [checkAIConfiguration, he]
  refine ⟨he, ?_, ?_, ?_, ?_⟩ <;>
    simp [toggleMonitoringStart, toggleMonitoring, initialMonitorState,
      hb]

/-- Witness for C2 at a concrete whitespace-only API key. -/
theorem blank_api_key_blocks_start_witness :
    checkAIConfigurationE
        (some { api_key := some "  ", detection_model := some "gpt" }) =
      some AIConfigError.missingApiKey ∧
    (toggleMonitoringStart
        { aiConfig :=
            some { api_key := some "  ", detection_model := some "gpt" }
          userSettings := some { whitelist := ["w"], blacklist := [] }
          emptyListConfirm := true
          apiTest := some { success := true, message := "" } }).started
      = false ∧
    toggleMonitoring
        { aiConfig :=
            some { api_key := some "  ", detection_model := some "gpt" }
          userSettings := some { whitelist := ["w"], blacklist := [] }
          emptyListConfirm := true
          apiTest := some { success := true, message := "" } }
        initialMonitorState = initialMonitorState ∧
    (toggleMonitoring
        { aiConfig :=
            some { api_key := some "  ", detection_model := some "gpt" }
          userSettings := some { whitelist := ["w"], blacklist := [] }
          emptyListConfirm := true
          apiTest := some { success := true, message := "" } }
        initialMonitorState).currentFocusState = "idle" ∧
    (toggleMonitoring
        { aiConfig :=
            some { api_key := some "  ", detection_model := some "gpt" }
          userSettings := some { whitelist := ["w"], blacklist := [] }
          emptyListConfirm := true
          apiTest := some { success := true, message := "" } }
        initialMonitorState).isMonitoring = false :=
  blank_api_key_blocks_start
    { aiConfig :=
        some { api_key := some "  ", detection_model := some "gpt" }
      userSettings := some { whitelist := ["w"], blacklist := [] }
      emptyListConfirm := true
      apiTest := some { success := true, message := "" } }
    { api_key := some "  ", detection_model := some "gpt" }
    rfl (by decide)

/-- C3: with both lists empty the list check surfaces the confirm
dialog; confirming lets the run reach the connectivity check,
declining routes to the settings page and monitoring does not start;
with at least one non-empty list no confirmation is requested. -/
theorem empty_lists_soft_confirmation (env : Env) (s : UserSettings)
    (hs : env.userSettings = some s)
    (hw : s.whitelist = []) (hb : s.blacklist = [])
    (hai : checkAIConfiguration env.aiConfig = true) :
    (checkWhiteBlacklistConfiguration env.userSettings
      env.emptyListConfirm).confirmRequested = true ∧
    (env.emptyListConfirm = true →
      (toggleMonitoringStart env).checksRun =
        [Check.aiCheck, Check.listCheck, Check.apiCheck]) ∧
    (env.emptyListConfirm = false →
      (checkWhiteBlacklistConfiguration env.userSettings
        env.emptyListConfirm).routedToSettings = true ∧
      (toggleMonitoringStart env).started = false) ∧
    (∀ s' : UserSettings, ∀ confirmed : Bool,
      s'.whitelist ≠ [] ∨ s'.blacklist ≠ [] →
      (checkWhiteBlacklistConfiguration (some s')
        confirmed).confirmRequested = false) := by
  refine ⟨?_, ?_, ?_, ?_⟩
  · rw [hs]
    cases hc : env.emptyListConfirm <;>
      simp [checkWhiteBlacklistConfiguration, hw, hb]
  · intro hc
    cases hap : testAPIConnectionForMonitoring env.apiTest <;>
      simp [toggleMonitoringStart, hai, hs, hc,
        checkWhiteBlacklistConfiguration, hw, hb, hap]
  · intro hc
    rw [hs, hc]
    constructor
    · simp [checkWhiteBlacklistConfiguration, hw, hb]
    · simp [toggleMonitoringStart, hai, hs, hc,
        checkWhiteBlacklistConfiguration, hw, hb]
  · intro s' confirmed hne
    rcases hne with h | h <;>
      simp [checkWhiteBlacklistConfiguration, List.isEmpty_iff, h]

/-- Witness for C3: both lists empty, declining user. -/
theorem empty_lists_soft_confirmation_witness :
    (checkWhiteBlacklistConfiguration
      (some { whitelist := [], blacklist := [] }) false).confirmRequested
      = true ∧
    ((false : Bool) = true →
      (toggleMonitoringStart
        { aiConfig :=
            some { api_key := some "k", detection_model := some "m" }
          userSettings := some { whitelist := [], blacklist := [] }
          emptyListConfirm := false
          apiTest := some { success := true, message := "" } }).checksRun
        = [Check.aiCheck, Check.listCheck, Check.apiCheck]) ∧
    ((false : Bool) = false →
      (checkWhiteBlacklistConfiguration
        (some { whitelist := [], blacklist := [] })
        false).routedToSettings = true ∧
      (toggleMonitoringStart
        { aiConfig :=
            some { api_key := some "k", detection_model := some "m" }
          userSettings := some { whitelist := [], blacklist := [] }
          emptyListConfirm := false
          apiTest := some { success := true, message := "" } }).started
        = false) ∧
    (∀ s' : UserSettings, ∀ confirmed : Bool,
      s'.whitelist ≠ [] ∨ s'.blacklist ≠ [] →
      (checkWhiteBlacklistConfiguration (some s')
        confirmed).confirmRequested = false) :=
  empty_lists_soft_confirmation
    { aiConfig :=
        some { api_key := some "k", detection_model := some "m" }
      userSettings := some { whitelist := [], blacklist := [] }
      emptyListConfirm := false
      apiTest := some { success := true, message := "" } }
    { whitelist := [], blacklist := [] }
    rfl rfl rfl (by decide)

/-- C4: the focus-state machine is memoryless in the state value —
after applying any sequence of classification results, the current
state is exactly the (mapped) state of the most recent result,
whatever the initial state and the earlier results were, and the
result's confidence plays no part in the transition. -/
theorem focus_state_memoryless (init : String)
    (rs : List ClassificationResult) (r : ClassificationResult) :
    applyResults init (rs ++ [r]) = focusStateMapKey r.focus_state ∧
    (∀ conf : Rat,
      applyResults init (rs ++ [{ r with confidence := conf }]) =
        focusStateMapKey r.focus_state) := by
  constructor
  · simp [applyResults, List.foldl_append, updateDashboardFocusState,
      updateFocusStatus]
  · intro conf
    simp [applyResults, List.foldl_append, updateDashboardFocusState,
      updateFocusStatus]

/-- C5 counterexample: a classification result whose raw state is
`'Unknown'` is mapped to `"idle"` and, once applied, moves the focus
state from `"focused"` to `"idle"` although `stop()` was not called
and no authorization failed — applying a result can enter Idle while
monitoring continues. -/
theorem unknown_result_enters_idle_cex :
    updateDashboardFocusState
        { focus_state := "Unknown", confidence := 1,
          application_name := none, window_title := none,
          ai_analysis := none } "focused" = "idle" ∧
    ("idle" : String) ≠ "focused" := by
  exact ⟨rfl, by decide⟩

/-- C5 (amended): on stop the state resets to `"idle"` unconditionally
regardless of the last classification; applying a classification
result yields `"idle"` exactly when the result's raw state maps to
idle (`'Unknown'` or any unrecognised string), and in particular a
result classified Focused/Distracted/SeverelyDistracted never moves
the state to idle. -/
theorem idle_entry_amended (env : Env) (st : MonitorState)
    (r : ClassificationResult) (current : String) :
    (st.isMonitoring = true →
      toggleMonitoring env st =
        { isMonitoring := false, currentFocusState := "idle" }) ∧
    (updateDashboardFocusState r current = "idle" ↔
      focusStateMapKey r.focus_state = "idle") ∧
    (r.focus_state = "Focused" ∨ r.focus_state = "Distracted" ∨
        r.focus_state = "SeverelyDistracted" →
      updateDashboardFocusState r current ≠ "idle") := by
  refine ⟨?_, ?_, ?_⟩
  · intro h
    simp [toggleMonitoring, h]
  · exact Iff.rfl
  · intro h
    rcases h with h | h | h <;>
      simp [updateDashboardFocusState, updateFocusStatus,
        focusStateMapKey, h]

/-- Helper: the display refresh never touches the debounce flag. -/
theorem display_preserves_isProcessing (tasks : List Task)
    (x : Option String) (st : TaskUIState) :
    (updateCurrentTaskDisplay tasks x st).isProcessing =
      st.isProcessing := by
  unfold updateCurrentTaskDisplay
  split <;> first | (split_ifs <;> rfl) | rfl

/-- Helper: the display refresh never touches the timer panel. -/
theorem display_preserves_timerText (tasks : List Task)
    (x : Option String) (st : TaskUIState) :
    (updateCurrentTaskDisplay tasks x st).timerText = st.timerText := by
  unfold updateCurrentTaskDisplay
  split <;> first | (split_ifs <;> rfl) | rfl

/-- C6 counterexample: the binding is bound to task `"1"`, which is in
the live set but completed, and the timer panel shows its text; the
reconcile inside `updateCurrentTaskDisplay` clears the binding, yet
the timer panel still shows the stale task afterwards — a UI mirror
shows the stale task after reconcile. -/
theorem reconcile_timer_mirror_stale_cex :
    (updateCurrentTaskDisplay [{ id := "1", completed := true }]
        (some "Write report")
        { isProcessing := false, currentSelectedTask := some "1",
          storedTask := some ("1", "Write report"),
          dashboardText := some "Write report",
          timerText := some "Write report", writes := 0,
          notifications := 0 }).currentSelectedTask = none ∧
    (updateCurrentTaskDisplay [{ id := "1", completed := true }]
        (some "Write report")
        { isProcessing := false, currentSelectedTask := some "1",
          storedTask := some ("1", "Write report"),
          dashboardText := some "Write report",
          timerText := some "Write report", writes := 0,
          notifications := 0 }).timerText = some "Write report" := by
  exact ⟨rfl, rfl⟩

/-- C6 (amended): the reconcile clears the binding exactly when the
bound id is absent from the live set or the bound task is completed,
and never otherwise; the stored selection and the dashboard text are
cleared with it, but the timer panel is left untouched by this path
and can keep showing the stale task — only the completion and
deletion paths clear every mirror. -/
theorem reconcile_clears_exactly (tasks : List Task) (tid t : String)
    (st : TaskUIState) (hb : st.currentSelectedTask = some tid)
    (htid : tid ≠ "") (ht : t ≠ "") :
    (taskAlive tasks tid = false ↔
      tasks.find? (fun tk => tk.id == tid) = none ∨
      ∃ tk, tasks.find? (fun tk2 => tk2.id == tid) = some tk ∧
        tk.completed = true) ∧
    ((updateCurrentTaskDisplay tasks (some t) st).currentSelectedTask
        = none ↔ taskAlive tasks tid = false) ∧
    (taskAlive tasks tid = false →
      (updateCurrentTaskDisplay tasks (some t) st).storedTask = none ∧
      (updateCurrentTaskDisplay tasks (some t) st).dashboardText =
        none) ∧
    (taskAlive tasks tid = true →
      updateCurrentTaskDisplay tasks (some t) st =
        { st with dashboardText := some t }) ∧
    (updateCurrentTaskDisplay tasks (some t) st).timerText =
      st.timerText ∧
    (onTaskCheckboxChange tasks tid true true st).currentSelectedTask
      = none ∧
    (onTaskCheckboxChange tasks tid true true st).storedTask = none ∧
    (onTaskCheckboxChange tasks tid true true st).dashboardText =
      none ∧
    (onTaskCheckboxChange tasks tid true true st).timerText = none ∧
    (deleteTask tasks tid true st).currentSelectedTask = none ∧
    (deleteTask tasks tid true st).timerText = none := by
  have ht' : (t == "") = false := beq_eq_false_iff_ne.mpr ht
  have htid' : (tid == "") = false := beq_eq_false_iff_ne.mpr htid
  refine ⟨?_, ?_, ?_, ?_, ?_, ?_, ?_, ?_, ?_, ?_, ?_⟩
  · unfold taskAlive
    cases hf : tasks.find? (fun tk => tk.id == tid) with
    | none => simp
    | some tk => cases hc : tk.completed <;> simp [hc]
  · cases hal : taskAlive tasks tid <;>
      simp [updateCurrentTaskDisplay, hb, ht', htid', hal]
  · intro hal
    simp [updateCurrentTaskDisplay, hb, ht', htid', hal]
  · intro hal
    simp [updateCurrentTaskDisplay, hb, ht', htid', hal]
  · exact display_preserves_timerText tasks (some t) st
  · simp [onTaskCheckboxChange, hb, clearCurrentTask,
      updateCurrentTaskDisplay, updateTimerCurrentTask, jsTruthyStr]
  · simp [onTaskCheckboxChange, hb, clearCurrentTask,
      updateCurrentTaskDisplay, updateTimerCurrentTask, jsTruthyStr]
  · simp [onTaskCheckboxChange, hb, clearCurrentTask,
      updateCurrentTaskDisplay, updateTimerCurrentTask, jsTruthyStr]
  · simp [onTaskCheckboxChange, hb, clearCurrentTask,
      updateCurrentTaskDisplay, updateTimerCurrentTask, jsTruthyStr]
  · simp [deleteTask, htid', hb, clearCurrentTask,
      updateCurrentTaskDisplay, updateTimerCurrentTask, jsTruthyStr]
  · simp [deleteTask, htid', hb, clearCurrentTask,
      updateCurrentTaskDisplay, updateTimerCurrentTask, jsTruthyStr]

/-- Witness for the amended C6 at a live, uncompleted bound task. -/
theorem reconcile_clears_exactly_witness :
    (updateCurrentTaskDisplay [{ id := "1", completed := false }]
        (some "Write")
        { isProcessing := false, currentSelectedTask := some "1",
          storedTask := some ("1", "Write"),
          dashboardText := some "Write", timerText := some "Write",
          writes := 0, notifications := 0 }).currentSelectedTask = none
      ↔ taskAlive [{ id := "1", completed := false }] "1" = false :=
  (reconcile_clears_exactly [{ id := "1", completed := false }] "1"
    "Write"
    { isProcessing := false, currentSelectedTask := some "1",
      storedTask := some ("1", "Write"), dashboardText := some "Write",
      timerText := some "Write", writes := 0, notifications := 0 }
    rfl (by decide) (by decide)).2.1

/-- Helper: a select attempt while the debounce flag is set (or with
falsy arguments) changes nothing. -/
theorem select_noop_when_processing (tasks : List Task) (a t : String)
    (s : TaskUIState) (h : s.isProcessing = true) :
    selectCurrentTask tasks a t s = s := by
  simp [selectCurrentTask, h]

/-- Helper: an effective select run leaves the binding at the selected
id (unless the freshly selected task is already dead, in which case
the display refresh nulls it again) and persists the selection; the
result fields do not depend on the prior state. -/
theorem select_run (tasks : List Task) (a t : String)
    (s : TaskUIState) (hg : (a == "" || t == "") = false)
    (hp : s.isProcessing = false) :
    (selectCurrentTask tasks a t s).currentSelectedTask =
      (if taskAlive tasks a then some a else none) ∧
    (selectCurrentTask tasks a t s).storedTask = some (a, t) := by
  obtain ⟨ha', ht'⟩ := Bool.or_eq_false_iff.mp hg
  cases hal : taskAlive tasks a <;>
    simp [selectCurrentTask, hg, hp, updateCurrentTaskDisplay,
      updateTimerCurrentTask, jsTruthyStr, ha', ht', hal]

/-- C7: selecting a task is idempotent and debounced — a second
activation inside the debounce window changes nothing at all (in
particular no further persistence write and no further notification),
and even a repeat after the debounce timeout leaves the binding and
the persisted selection exactly as one selection left them. -/
theorem select_task_idempotent (tasks : List Task) (a t : String)
    (st : TaskUIState) :
    selectCurrentTask tasks a t (selectCurrentTask tasks a t st) =
      selectCurrentTask tasks a t st ∧
    (selectCurrentTask tasks a t
        (selectCurrentTask tasks a t st)).writes =
      (selectCurrentTask tasks a t st).writes ∧
    (selectCurrentTask tasks a t
        (selectCurrentTask tasks a t st)).notifications =
      (selectCurrentTask tasks a t st).notifications ∧
    (st.isProcessing = false →
      (selectCurrentTask tasks a t (resetSelectDebounce
          (selectCurrentTask tasks a t st))).currentSelectedTask =
        (selectCurrentTask tasks a t st).currentSelectedTask ∧
      (selectCurrentTask tasks a t (resetSelectDebounce
          (selectCurrentTask tasks a t st))).storedTask =
        (selectCurrentTask tasks a t st).storedTask) := by
  by_cases hg : (a == "" || t == "") = true
  · simp [selectCurrentTask, hg, resetSelectDebounce]
  · have hg' : (a == "" || t == "") = false :=
      Bool.eq_false_iff.mpr hg
    by_cases hp : st.isProcessing = true
    · have h1 : selectCurrentTask tasks a t st = st :=
        select_noop_when_processing tasks a t st hp
      refine ⟨by simp [h1], by simp [h1], by simp [h1], ?_⟩
      intro hf
      rw [hf] at hp
      exact absurd hp (by decide)
    · have hp' : st.isProcessing = false := Bool.eq_false_iff.mpr hp
      have hproc : (selectCurrentTask tasks a t st).isProcessing =
          true := by
        simp [selectCurrentTask, hg', hp', updateTimerCurrentTask,
          display_preserves_isProcessing, apply_ite]
      have h1 := select_noop_when_processing tasks a t
        (selectCurrentTask tasks a t st) hproc
      refine ⟨h1, by rw [h1], by rw [h1], ?_⟩
      intro _
      have hreset : (resetSelectDebounce
          (selectCurrentTask tasks a t st)).isProcessing = false := rfl
      constructor
      · rw [(select_run tasks a t _ hg' hreset).1,
          (select_run tasks a t st hg' hp').1]
      · rw [(select_run tasks a t _ hg' hreset).2,
          (select_run tasks a t st hg' hp').2]

/-- C8: every delivered intervention event renders the in-app surface,
and requests an OS-level notification exactly when it is urgent or
its kind is not encouragement; since the policy only delivers
non-urgent encouragement, encouragement stays in-app-only while both
distraction kinds reach the OS level. -/
theorem intervention_delivery_surfaces (p : InterventionPayload)
    (hp : policyDeliverable p) :
    (showDistractionIntervention p).inAppShown = true ∧
    ((showDistractionIntervention p).systemRequested = true ↔
      (p.urgent = true ∨ p.type ≠ "encouragement")) ∧
    (p.type = "encouragement" →
      (showDistractionIntervention p).systemRequested = false) := by
  by_cases he : p.type = "encouragement"
  · have hu : p.urgent = false := hp he
    simp [showDistractionIntervention, showNotification,
      showSystemNotifFlag, he, hu]
  · have he' : (p.type == "encouragement") = false :=
      beq_eq_false_iff_ne.mpr he
    cases hu : p.urgent <;>
      simp [showDistractionIntervention, showNotification,
        showSystemNotifFlag, he', he, hu]

/-- Witness for C8 at a concrete light-distraction event. -/
theorem intervention_delivery_surfaces_witness :
    (showDistractionIntervention
        { type := "light_distraction", message := "stay focused",
          urgent := false, duration_seconds := some 10,
          sound_enabled := false }).inAppShown = true ∧
    ((showDistractionIntervention
        { type := "light_distraction", message := "stay focused",
          urgent := false, duration_seconds := some 10,
          sound_enabled := false }).systemRequested = true ↔
      ((false : Bool) = true ∨
        ("light_distraction" : String) ≠ "encouragement")) ∧
    (("light_distraction" : String) = "encouragement" →
      (showDistractionIntervention
        { type := "light_distraction", message := "stay focused",
          urgent := false, duration_seconds := some 10,
          sound_enabled := false }).systemRequested = false) :=
  intervention_delivery_surfaces
    { type := "light_distraction", message := "stay focused",
      urgent := false, duration_seconds := some 10,
      sound_enabled := false }
    (by decide)

/-- C9 counterexample: an event whose `durationSeconds` is 0 (set, not
unset) is auto-dismissed after 10 seconds rather than after its
`durationSeconds`, because `(duration_seconds || 10)` treats 0 as
falsy. -/
theorem zero_duration_not_honoured_cex :
    autoDismissSeconds
        { type := "light_distraction", message := "m", urgent := false,
          duration_seconds := some 0, sound_enabled := false } = 10 ∧
    (10 : Nat) ≠ 0 :=
  ⟨rfl, by decide⟩

/-- C9 (amended): the surface auto-dismisses after the event's
`durationSeconds` when that is set and non-zero, and after the
10-second default when it is unset or zero; a newly delivered event
replaces any currently displayed modal (the single `#distraction-modal`
is removed before the new one is inserted), so surfaces never stack. -/
theorem auto_dismiss_and_replacement (p : InterventionPayload)
    (cur : Option InterventionPayload) (d : Nat) :
    (p.duration_seconds = none → autoDismissSeconds p = 10) ∧
    (p.duration_seconds = some 0 → autoDismissSeconds p = 10) ∧
    (p.duration_seconds = some d → d ≠ 0 →
      autoDismissSeconds p = d) ∧
    deliverModal p cur = some p := by
  refine ⟨?_, ?_, ?_, rfl⟩
  · intro h
    simp [autoDismissSeconds, h]
  · intro h
    simp [autoDismissSeconds, h]
  · intro h hd
    simp [autoDismissSeconds, h, hd]

/-- Helper: JavaScript `x || true` is `true` whatever `x` is. -/
theorem jsOrDefault_true (a : Option Bool) :
    jsOrDefault a true = true := by
  rcases a with _ | b
  · rfl
  · cases b <;> rfl

/-- C10: every save of the `distraction_intervention` object persists
all five boolean fields as `true`, whatever the checkboxes show —
`?.checked || true` yields `true` even for an unchecked box, so
unchecking these options is never persisted. -/
theorem intervention_booleans_always_saved_true
    (cb : InterventionCheckboxes) :
    buildDistractionInterventionSettings cb =
      { enabled := true, light_distraction_notification := true,
        severe_distraction_popup := true,
        encouragement_enabled := true,
        notification_sound := true } := by
  simp [buildDistractionInterventionSettings, jsOrDefault_true]

end MyFocus
